import Mathlib

/-!
Shallow embedding of `src/raw_id.rs` (the `RawId` type of salsa) and proofs
of the specification's claims about it.

Machine integers are modelled as `Nat` with explicit `% 2^32` where the
source performs a u32 cast or where u32 arithmetic could wrap; the panicking
`From` constructors are modelled as `Option`-returning functions where
`none` stands for the panic.
-/

namespace Salsa

/-- The modulus of the `u32` machine type. -/
def U32_MOD : Nat := 2 ^ 32

/-- Embedding of `pub struct RawId { value: NonZeroU32 }`. The field `value`
holds the raw bits of the stored `NonZeroU32`; the nonzero property is not
baked into the type (it is proved, for every reachable value, as an
invariant theorem), mirroring the fact that the source builds it with
`NonZeroU32::new_unchecked`. -/
structure RawId where
  value : Nat
deriving DecidableEq

namespace RawId

/-- Embedding of `pub const MAX: u32 = 0xFFFF_FF00;`. -/
def MAX : Nat := 0xFFFFFF00

/-- Embedding of `unsafe fn new_unchecked(value: u32) -> Self`, which stores
`value + 1` in the `NonZeroU32`. The `+ 1` is u32 addition, hence the
`% U32_MOD`. (The source's `debug_assert!` is compiled out of release
builds and is not part of the function's value semantics.) -/
def new_unchecked (value : Nat) : RawId :=
  ⟨(value + 1) % U32_MOD⟩

/-- Embedding of `pub fn as_u32(self) -> u32 { self.value.get() - 1 }`.
Subtraction on `Nat` is truncated, like the wrapping behaviour of release
u32 subtraction at 0; the invariant theorems show the stored value is
always at least 1, so no truncation ever happens on reachable values. -/
def as_u32 (self : RawId) : Nat :=
  self.value - 1

/-- Embedding of `pub fn as_usize(self) -> usize { self.as_u32() as usize }`.
The cast u32 → usize is a widening, hence the identity on `Nat`. -/
def as_usize (self : RawId) : Nat :=
  self.as_u32

/-- Embedding of `impl From<RawId> for u32`, which calls `as_u32`. -/
def u32_from (raw : RawId) : Nat :=
  raw.as_u32

/-- Embedding of `impl From<RawId> for usize`, which calls `as_usize`. -/
def usize_from (raw : RawId) : Nat :=
  raw.as_usize

/-- Embedding of `impl From<u32> for RawId`:
`assert!(id < RawId::MAX); unsafe { RawId::new_unchecked(id) }`.
The assert's panic is modelled as `none`. -/
def from_u32 (id : Nat) : Option RawId :=
  if id < MAX then some (new_unchecked id) else none

/-- Embedding of `impl From<usize> for RawId`:
`assert!(id < (RawId::MAX as usize)); unsafe { RawId::new_unchecked(id as u32) }`.
The truncating cast `id as u32` is modelled by `% U32_MOD`. -/
def from_usize (id : Nat) : Option RawId :=
  if id < MAX then some (new_unchecked (id % U32_MOD)) else none

/-- Embedding of the derived `Ord`/`PartialOrd` on `RawId`, which compares
the single stored `NonZeroU32` field (i.e. the raw stored values). -/
def lt (a b : RawId) : Bool :=
  decide (a.value < b.value)

/-- Embedding of the derived `Hash` on `RawId`: it feeds the stored u32 of
the single field into the hasher. An arbitrary (deterministic) hasher state
is modelled as a function from the fed value to the resulting hash. -/
def hashWith (hasher : Nat → Nat) (r : RawId) : Nat :=
  hasher r.value

/-- Embedding of `impl fmt::Debug for RawId`, which formats
`self.as_usize()` with the standard decimal formatter for `usize`. -/
def debugStr (r : RawId) : String :=
  Nat.repr r.as_usize

/-- Embedding of `impl fmt::Display for RawId`, which also formats
`self.as_usize()` with the standard decimal formatter for `usize`. -/
def displayStr (r : RawId) : String :=
  Nat.repr r.as_usize

/-- Inversion helper: a successful `from_u32` pins down the input bound and
the result. -/
theorem from_u32_some {n : Nat} {r : RawId}
    (h : from_u32 n = some r) : n < MAX ∧ r = new_unchecked n := by
  by_cases hn : n < MAX
  · refine ⟨hn, ?_⟩
    simpa [from_u32, hn] using h.symm
  · simp [from_u32, hn] at h

/-- Inversion helper: a successful `from_usize` pins down the input bound
and the result. -/
theorem from_usize_some {n : Nat} {r : RawId}
    (h : from_usize n = some r) : n < MAX ∧ r = new_unchecked n := by
  by_cases hn : n < MAX
  · have hmod : n % U32_MOD = n :=
      Nat.mod_eq_of_lt (lt_trans hn (by decide))
    refine ⟨hn, ?_⟩
    have := h.symm
    simpa [from_usize, hn, hmod] using this
  · simp [from_usize, hn] at h

/-- Helper: below `MAX`, `new_unchecked` stores exactly `n + 1`. -/
theorem new_unchecked_value {n : Nat} (h : n < MAX) :
    (new_unchecked n).value = n + 1 := by
  have hlt : n + 1 < U32_MOD := by
    have hm : MAX + 1 ≤ U32_MOD := by decide
    omega
  simp [new_unchecked, Nat.mod_eq_of_lt hlt]

/-- Helper: below `MAX`, `as_u32` inverts `new_unchecked`. -/
theorem as_u32_new_unchecked {n : Nat} (h : n < MAX) :
    (new_unchecked n).as_u32 = n := by
  simp [as_u32, new_unchecked_value h]

end RawId

/-- Claim C1: for every `n` with `0 ≤ n < MAX`, constructing a `RawId` from
`n` via the u32 constructor and reading it back as u32 returns exactly `n`,
and constructing via the usize constructor and reading back as usize
returns exactly `n` — the internal `+1` shift is exactly reversed. -/
theorem c1_round_trip (n : Nat) (h : n < RawId.MAX) :
    (RawId.from_u32 n).map RawId.as_u32 = some n ∧
    (RawId.from_usize n).map RawId.as_usize = some n := by
  have hmod : n % U32_MOD = n := Nat.mod_eq_of_lt (lt_trans h (by decide))
  constructor
  · simp [RawId.from_u32, h, RawId.as_u32_new_unchecked h]
  · simp [RawId.from_usize, h, hmod, RawId.as_usize,
      RawId.as_u32_new_unchecked h]

/-- Witness for C1 at `n = 22`. -/
theorem c1_round_trip_witness :
    (RawId.from_u32 22).map RawId.as_u32 = some 22 ∧
    (RawId.from_usize 22).map RawId.as_usize = some 22 :=
  c1_round_trip 22 (by decide)

/-- Claim C2: constructing from `MAX` fails (models the panic as `none`);
constructing from any u32 strictly above `MAX`, or any usize strictly above
`MAX` (including values above the u32 maximum), also fails with no silent
clamping or wraparound; and constructing from `MAX - 1` succeeds and
round-trips back to `MAX - 1`. -/
theorem c2_range_rejection (n m : Nat)
    (h1 : RawId.MAX < n) (h2 : n < U32_MOD) (h3 : RawId.MAX < m) :
    RawId.from_u32 RawId.MAX = none ∧
    RawId.from_usize RawId.MAX = none ∧
    RawId.from_u32 n = none ∧
    RawId.from_usize m = none ∧
    (RawId.from_u32 (RawId.MAX - 1)).map RawId.as_u32 =
      some (RawId.MAX - 1) ∧
    (RawId.from_usize (RawId.MAX - 1)).map RawId.as_usize =
      some (RawId.MAX - 1) := by
  refine ⟨?_, ?_, ?_, ?_, ?_, ?_⟩
  · simp [RawId.from_u32]
  · simp [RawId.from_usize]
  · simp [RawId.from_u32]; omega
  · simp [RawId.from_usize]; omega
  · exact (c1_round_trip (RawId.MAX - 1) (by decide)).1
  · exact (c1_round_trip (RawId.MAX - 1) (by decide)).2

/-- Witness for C2 at `n = MAX + 1` (a u32 value) and `m = 2^32 + 5` (a
usize value above the u32 maximum). -/
theorem c2_range_rejection_witness :
    RawId.MAX < RawId.MAX + 1 ∧ RawId.MAX + 1 < U32_MOD ∧
    RawId.MAX < 2 ^ 32 + 5 ∧
    (RawId.from_u32 RawId.MAX = none ∧
     RawId.from_usize RawId.MAX = none ∧
     RawId.from_u32 (RawId.MAX + 1) = none ∧
     RawId.from_usize (2 ^ 32 + 5) = none ∧
     (RawId.from_u32 (RawId.MAX - 1)).map RawId.as_u32 =
       some (RawId.MAX - 1) ∧
     (RawId.from_usize (RawId.MAX - 1)).map RawId.as_usize =
       some (RawId.MAX - 1)) :=
  ⟨by decide, by decide, by decide,
   c2_range_rejection (RawId.MAX + 1) (2 ^ 32 + 5)
     (by decide) (by decide) (by decide)⟩

/-- Claim C3: every `RawId` reachable through the public constructors has a
displayed value strictly below `MAX`, and its internal stored
representation equals the displayed value plus one, hence is never zero. -/
theorem c3_invariant (n : Nat) (r : RawId)
    (h : RawId.from_u32 n = some r ∨ RawId.from_usize n = some r) :
    RawId.as_u32 r < RawId.MAX ∧
    r.value = RawId.as_u32 r + 1 ∧ 1 ≤ r.value := by
  have hnr : n < RawId.MAX ∧ r = RawId.new_unchecked n := by
    rcases h with h | h
    · exact RawId.from_u32_some h
    · exact RawId.from_usize_some h
  rcases hnr with ⟨hn, rfl⟩
  have hv := RawId.new_unchecked_value hn
  have ha := RawId.as_u32_new_unchecked hn
  refine ⟨?_, ?_, ?_⟩
  · omega
  · omega
  · omega

/-- Witness for C3 at `n = 22` via the u32 constructor. -/
theorem c3_invariant_witness :
    (RawId.from_u32 22 = some (RawId.new_unchecked 22) ∨
     RawId.from_usize 22 = some (RawId.new_unchecked 22)) ∧
    (RawId.as_u32 (RawId.new_unchecked 22) < RawId.MAX ∧
     (RawId.new_unchecked 22).value =
       RawId.as_u32 (RawId.new_unchecked 22) + 1 ∧
     1 ≤ (RawId.new_unchecked 22).value) :=
  ⟨Or.inl (by decide),
   c3_invariant 22 (RawId.new_unchecked 22) (Or.inl (by decide))⟩

/-- Claim C4: for valid inputs, the constructed `RawId` values are equal
iff the inputs are equal, and the derived order on `RawId` (comparison of
the stored fields) holds iff the inputs compare in the same way. -/
theorem c4_eq_ord (n1 n2 : Nat) (r1 r2 : RawId)
    (h1 : RawId.from_u32 n1 = some r1) (h2 : RawId.from_u32 n2 = some r2) :
    (r1 = r2 ↔ n1 = n2) ∧ (RawId.lt r1 r2 = true ↔ n1 < n2) := by
  obtain ⟨hn1, rfl⟩ := RawId.from_u32_some h1
  obtain ⟨hn2, rfl⟩ := RawId.from_u32_some h2
  have hv1 := RawId.new_unchecked_value hn1
  have hv2 := RawId.new_unchecked_value hn2
  constructor
  · constructor
    · intro h
      have : (RawId.new_unchecked n1).value =
          (RawId.new_unchecked n2).value := by rw [h]
      omega
    · intro h; subst h; rfl
  · simp only [RawId.lt, decide_eq_true_eq]
    omega

/-- Witness for C4 at `n1 = 3`, `n2 = 5`. -/
theorem c4_eq_ord_witness :
    RawId.from_u32 3 = some (RawId.new_unchecked 3) ∧
    RawId.from_u32 5 = some (RawId.new_unchecked 5) ∧
    ((RawId.new_unchecked 3 = RawId.new_unchecked 5 ↔ (3 : Nat) = 5) ∧
     (RawId.lt (RawId.new_unchecked 3) (RawId.new_unchecked 5) = true ↔
       (3 : Nat) < 5)) :=
  ⟨by decide, by decide,
   c4_eq_ord 3 5 (RawId.new_unchecked 3) (RawId.new_unchecked 5)
     (by decide) (by decide)⟩

/-- Claim C5: for every usize value below `MAX`, the usize constructor
yields exactly the same `RawId` as the u32 constructor; in particular the
values constructed from 22 as u32 and as usize are equal and both convert
back to 22 via both extraction methods. -/
theorem c5_usize_u32_agree (n : Nat) (h : n < RawId.MAX) :
    RawId.from_usize n = RawId.from_u32 n ∧
    RawId.from_u32 22 = RawId.from_usize 22 ∧
    (RawId.from_u32 22).map RawId.as_u32 = some 22 ∧
    (RawId.from_u32 22).map RawId.as_usize = some 22 ∧
    (RawId.from_usize 22).map RawId.as_u32 = some 22 ∧
    (RawId.from_usize 22).map RawId.as_usize = some 22 := by
  have hmod : n % U32_MOD = n := Nat.mod_eq_of_lt (lt_trans h (by decide))
  refine ⟨?_, ?_, ?_, ?_, ?_, ?_⟩
  · simp [RawId.from_usize, RawId.from_u32, hmod]
  · decide
  · decide
  · decide
  · decide
  · decide

/-- Witness for C5 at `n = 22`. -/
theorem c5_usize_u32_agree_witness :
    RawId.from_usize 22 = RawId.from_u32 22 ∧
    RawId.from_u32 22 = RawId.from_usize 22 :=
  ⟨(c5_usize_u32_agree 22 (by decide)).1,
   (c5_usize_u32_agree 22 (by decide)).2.1⟩

/-- Claim C6: the debug and display renderings of a `RawId` are identical,
both are exactly the plain decimal digits of the displayed value, and the
`RawId` constructed from 22 renders as the text "22" in both. -/
theorem c6_rendering (r : RawId) :
    RawId.debugStr r = RawId.displayStr r ∧
    RawId.debugStr r = Nat.repr (RawId.as_usize r) ∧
    (RawId.from_u32 22).map RawId.debugStr = some "22" ∧
    (RawId.from_u32 22).map RawId.displayStr = some "22" := by
  refine ⟨rfl, rfl, ?_, ?_⟩
  · decide
  · decide

/-- Claim C7: hashing is a deterministic function of the displayed value
alone — for any hasher, two reachable `RawId` values with equal displayed
values are equal and hash identically. -/
theorem c7_hash (hasher : Nat → Nat) (a b : RawId)
    (ha : 1 ≤ a.value) (hb : 1 ≤ b.value)
    (heq : RawId.as_u32 a = RawId.as_u32 b) :
    a = b ∧ RawId.hashWith hasher a = RawId.hashWith hasher b := by
  have hv : a.value = b.value := by
    simp only [RawId.as_u32] at heq
    omega
  have hab : a = b := by
    cases a; cases b
    simpa using hv
  exact ⟨hab, by rw [hab]⟩

/-- Witness for C7 with the identity hasher on the value constructed
from 22. -/
theorem c7_hash_witness :
    1 ≤ (RawId.new_unchecked 22).value ∧
    (RawId.new_unchecked 22 = RawId.new_unchecked 22 ∧
     RawId.hashWith id (RawId.new_unchecked 22) =
       RawId.hashWith id (RawId.new_unchecked 22)) :=
  ⟨by decide,
   c7_hash id (RawId.new_unchecked 22) (RawId.new_unchecked 22)
     (by decide) (by decide) rfl⟩

/-- Claim C8: on every reachable `RawId` the extraction operations are
total and exact — the stored value is at least 1 so the subtraction in
`as_u32` never underflows, `as_u32` returns the original displayed value,
and `as_usize` agrees with it. -/
theorem c8_extraction_total (n : Nat) (r : RawId)
    (h : RawId.from_u32 n = some r ∨ RawId.from_usize n = some r) :
    1 ≤ r.value ∧ RawId.as_u32 r + 1 = r.value ∧
    RawId.as_u32 r = n ∧ RawId.as_usize r = n := by
  have hnr : n < RawId.MAX ∧ r = RawId.new_unchecked n := by
    rcases h with h | h
    · exact RawId.from_u32_some h
    · exact RawId.from_usize_some h
  rcases hnr with ⟨hn, rfl⟩
  have hv := RawId.new_unchecked_value hn
  have ha := RawId.as_u32_new_unchecked hn
  exact ⟨by omega, by omega, ha, by simpa [RawId.as_usize] using ha⟩

/-- Witness for C8 at `n = 7` via the usize constructor. -/
theorem c8_extraction_total_witness :
    (RawId.from_u32 7 = some (RawId.new_unchecked 7) ∨
     RawId.from_usize 7 = some (RawId.new_unchecked 7)) ∧
    (1 ≤ (RawId.new_unchecked 7).value ∧
     RawId.as_u32 (RawId.new_unchecked 7) + 1 =
       (RawId.new_unchecked 7).value ∧
     RawId.as_u32 (RawId.new_unchecked 7) = 7 ∧
     RawId.as_usize (RawId.new_unchecked 7) = 7) :=
  ⟨Or.inr (by decide),
   c8_extraction_total 7 (RawId.new_unchecked 7) (Or.inr (by decide))⟩

/-- Claim C9: the exposed constant `MAX` equals `0xFFFF_FF00`
(4,294,967,040), and construction from any value at or above `MAX` — the
whole reserved band up to and beyond the u32 maximum — fails. -/
theorem c9_max_constant (n : Nat) (h : RawId.MAX ≤ n) :
    RawId.MAX = 0xFFFFFF00 ∧ RawId.MAX = 4294967040 ∧
    RawId.from_u32 n = none ∧ RawId.from_usize n = none := by
  refine ⟨rfl, by decide, ?_, ?_⟩
  · simp [RawId.from_u32]; omega
  · simp [RawId.from_usize]; omega

/-- Witness for C9 at `n = MAX` itself. -/
theorem c9_max_constant_witness :
    RawId.MAX ≤ RawId.MAX ∧
    (RawId.MAX = 0xFFFFFF00 ∧ RawId.MAX = 4294967040 ∧
     RawId.from_u32 RawId.MAX = none ∧
     RawId.from_usize RawId.MAX = none) :=
  ⟨Nat.le_refl _, c9_max_constant RawId.MAX (Nat.le_refl _)⟩

/-- Claim C10: all four extraction routes agree on every `RawId`: the
`From` conversion to u32 equals `as_u32`, the `From` conversion to usize
equals `as_usize`, and `as_usize` equals `as_u32` widened. -/
theorem c10_extraction_agree (r : RawId) :
    RawId.u32_from r = RawId.as_u32 r ∧
    RawId.usize_from r = RawId.as_usize r ∧
    RawId.as_usize r = RawId.as_u32 r :=
  ⟨rfl, rfl, rfl⟩

end Salsa
